import Mathlib

/-!
Verification development for the `matterfilesmobile` interactive annotation
engine (`src/components/ImageAnnotator.tsx`).  Coordinates (JS `number`) are
modelled as exact rationals `ℚ` for the store and gesture logic, and as reals
`ℝ` for the trigonometric label-placement helper.  React `useState` cells are
gathered into one `AnnotatorState` record and every event handler becomes a
pure state-transformer, faithful to the source handler of the same name.
-/

namespace Annotator

/-- Coordinate pair, `interface Point \x7b x: number; y: number \x7d`. -/
structure Point where
  x : ℚ
  y : ℚ
deriving DecidableEq, Repr

/-- Freehand stroke, `interface DrawPath` (points plus stroke color).  The
source occasionally attaches a stray `id` field to path literals; the declared
interface has none, and no logic reads it, so it is not modelled. -/
structure DrawPath where
  points : List Point
  color : String
deriving DecidableEq, Repr

/-- Text label, `interface TextAnnotation`. -/
structure TextAnnotation where
  id : String
  text : String
  position : Point
  color : String
deriving DecidableEq, Repr

/-- Icon kind, the `'tick' | 'cross'` union. -/
inductive IconType where
  | tick
  | cross
deriving DecidableEq, Repr

/-- Icon marker, `interface IconAnnotation`. -/
structure IconAnnotation where
  id : String
  type : IconType
  position : Point
deriving DecidableEq, Repr

/-- Rectangle, `interface RectAnnotation`.  The source field `end` is a Lean
keyword and is rendered here as `endP`. -/
structure RectAnnotation where
  id : String
  start : Point
  endP : Point
  color : String
deriving DecidableEq, Repr

/-- Measurement line, `interface MeasurementAnnotation`. -/
structure MeasurementAnnotation where
  id : String
  start : Point
  endP : Point
  measurement : String
deriving DecidableEq, Repr

/-- Comparison line, `type ComparisonMeasurement`. -/
structure ComparisonMeasurement where
  id : String
  start : Point
  endP : Point
  currentMeasurement : String
  targetMeasurement : String
deriving DecidableEq, Repr

/-- One undo-stack entry: the object literal pushed by `saveToUndoStack`,
which copies exactly the five collections (no `thumbnailUri`, and no
comparisons). -/
structure Snapshot where
  paths : List DrawPath
  texts : List TextAnnotation
  icons : List IconAnnotation
  rectangles : List RectAnnotation
  measurements : List MeasurementAnnotation
deriving DecidableEq, Repr

/-- Persisted aggregate, `interface AnnotationData`: the five collections plus
the thumbnail reference assembled by `handleSave`.  Comparisons are absent
from this interface in the source. -/
structure AnnotationData where
  paths : List DrawPath
  texts : List TextAnnotation
  icons : List IconAnnotation
  rectangles : List RectAnnotation
  measurements : List MeasurementAnnotation
  thumbnailUri : String
deriving DecidableEq, Repr

/-- Selection kind for `SelectedItem.type`.  The source type annotation lists
only text/icon/rectangle/measurement, but `handleSelection` also stores
`'comparison'` and the move switch handles it, so it is included. -/
inductive SelKind where
  | text
  | icon
  | rectangle
  | measurement
  | comparison
deriving DecidableEq, Repr

/-- Drag-session state, `interface SelectedItem`. -/
structure SelectedItem where
  type : Option SelKind
  id : Option String
  initialPosition : Option Point
deriving DecidableEq, Repr

/-- Default stroke color constant `DEFAULT_COLOR`. -/
def DEFAULT_COLOR : String := "#FF0000"

/-- Color applied to committed text annotations (`theme.colors.text`).  The
theme module is outside the annotator; only the fact that it is one fixed
string matters here. -/
def themeColorsText : String := "theme.colors.text"

/-- The `useState` cells of the `ImageAnnotator` component that the gesture,
deletion, undo and save logic reads or writes.  The active `mode` is left
implicit: each handler below corresponds to one mode branch of the source. -/
structure AnnotatorState where
  paths : List DrawPath
  texts : List TextAnnotation
  icons : List IconAnnotation
  rectangles : List RectAnnotation
  measurements : List MeasurementAnnotation
  comparisons : List ComparisonMeasurement
  currentPath : Option DrawPath
  currentRect : Option RectAnnotation
  currentMeasurement : Option MeasurementAnnotation
  currentComparison : Option ComparisonMeasurement
  textInput : String
  textPosition : Option Point
  showTextInput : Bool
  measurementInput : String
  showMeasurementInput : Bool
  currentComparisonInput : String
  targetComparisonInput : String
  showComparisonInput : Bool
  selectedItem : SelectedItem
  hasUnsavedChanges : Bool
  undoStack : List Snapshot
deriving DecidableEq, Repr

/-- Initial state of the component (lines 131-156): the five persisted
collections come from `initialAnnotations` when present, `comparisons` always
starts empty, the dirty flag is false and the undo stack is empty. -/
def initState (initialAnnotations : Option AnnotationData) : AnnotatorState where
  paths := (initialAnnotations.map (fun a => a.paths)).getD []
  texts := (initialAnnotations.map (fun a => a.texts)).getD []
  icons := (initialAnnotations.map (fun a => a.icons)).getD []
  rectangles := (initialAnnotations.map (fun a => a.rectangles)).getD []
  measurements := (initialAnnotations.map (fun a => a.measurements)).getD []
  comparisons := []
  currentPath := none
  currentRect := none
  currentMeasurement := none
  currentComparison := none
  textInput := ""
  textPosition := none
  showTextInput := false
  measurementInput := ""
  showMeasurementInput := false
  currentComparisonInput := ""
  targetComparisonInput := ""
  showComparisonInput := false
  selectedItem := ⟨none, none, none⟩
  hasUnsavedChanges := false
  undoStack := []

/-- Annotation ids in the source are `Date.now().toString()`: the decimal
string of the millisecond clock at creation time.  The clock value is passed
in explicitly, as is standard for embedding the impure `Date.now()` call. -/
def freshId (now : ℕ) : String := toString now

/-- Hit test `isTextTouched` (lines 514-518): axis-aligned box, strict 50. -/
def isTextTouched (point : Point) (text : TextAnnotation) : Bool :=
  decide (|point.x - text.position.x| < 50 ∧ |point.y - text.position.y| < 50)

/-- Hit test `isIconTouched` (lines 520-524): axis-aligned box, strict 30. -/
def isIconTouched (point : Point) (icon : IconAnnotation) : Bool :=
  decide (|point.x - icon.position.x| < 30 ∧ |point.y - icon.position.y| < 30)

/-- Hit test `isRectangleTouched` (lines 526-532): min/max bounding box
expanded by 30, boundary inclusive. -/
def isRectangleTouched (point : Point) (rect : RectAnnotation) : Bool :=
  decide (min rect.start.x rect.endP.x - 30 ≤ point.x ∧
          point.x ≤ max rect.start.x rect.endP.x + 30 ∧
          min rect.start.y rect.endP.y - 30 ≤ point.y ∧
          point.y ≤ max rect.start.y rect.endP.y + 30)

/-- Hit test `isMeasurementTouched` (lines 534-540). -/
def isMeasurementTouched (point : Point) (m : MeasurementAnnotation) : Bool :=
  decide (min m.start.x m.endP.x - 30 ≤ point.x ∧
          point.x ≤ max m.start.x m.endP.x + 30 ∧
          min m.start.y m.endP.y - 30 ≤ point.y ∧
          point.y ≤ max m.start.y m.endP.y + 30)

/-- Hit test `isComparisonTouched` (lines 120-126). -/
def isComparisonTouched (point : Point) (c : ComparisonMeasurement) : Bool :=
  decide (min c.start.x c.endP.x - 30 ≤ point.x ∧
          point.x ≤ max c.start.x c.endP.x + 30 ∧
          min c.start.y c.endP.y - 30 ≤ point.y ∧
          point.y ≤ max c.start.y c.endP.y + 30)

/-- Snapshot of the five collections of a state, as built by
`saveToUndoStack` (lines 580-588). -/
def mkSnapshot (s : AnnotatorState) : Snapshot where
  paths := s.paths
  texts := s.texts
  icons := s.icons
  rectangles := s.rectangles
  measurements := s.measurements

/-- `saveToUndoStack` (lines 580-588): appends the current five collections
to the undo stack.  Comparisons are not captured. -/
def saveToUndoStack (s : AnnotatorState) : AnnotatorState :=
  { s with undoStack := s.undoStack ++ [mkSnapshot s] }

/-- `handleDeletion` (lines 591-644): pushes one snapshot, then filters every
touched annotation out of each of the four collections texts, icons,
rectangles, measurements (comparisons are not probed), and sets the dirty
flag iff any collection shrank. -/
def handleDeletion (point : Point) (s0 : AnnotatorState) : AnnotatorState :=
  let s := saveToUndoStack s0
  let newTexts := s.texts.filter (fun t => !isTextTouched point t)
  let newIcons := s.icons.filter (fun i => !isIconTouched point i)
  let newRects := s.rectangles.filter (fun r => !isRectangleTouched point r)
  let newMeasurements := s.measurements.filter (fun m => !isMeasurementTouched point m)
  let deletedSomething :=
    decide (newTexts.length ≠ s.texts.length) ||
    decide (newIcons.length ≠ s.icons.length) ||
    decide (newRects.length ≠ s.rectangles.length) ||
    decide (newMeasurements.length ≠ s.measurements.length)
  { s with
      texts := newTexts
      icons := newIcons
      rectangles := newRects
      measurements := newMeasurements
      hasUnsavedChanges := if deletedSomething then true else s.hasUnsavedChanges }

/-- `handleUndo` (lines 567-577): if the stack is nonempty, restore the five
collections from the last snapshot and pop it.  Comparisons and the dirty
flag are untouched. -/
def handleUndo (s : AnnotatorState) : AnnotatorState :=
  match s.undoStack.getLast? with
  | some previousState =>
      { s with
          paths := previousState.paths
          texts := previousState.texts
          icons := previousState.icons
          rectangles := previousState.rectangles
          measurements := previousState.measurements
          undoStack := s.undoStack.dropLast }
  | none => s

/-- `handleClearAll` (lines 647-660): one snapshot, then the five collections
are emptied and the dirty flag set.  Comparisons are not cleared. -/
def handleClearAll (s0 : AnnotatorState) : AnnotatorState :=
  let s := saveToUndoStack s0
  { s with
      paths := []
      texts := []
      icons := []
      rectangles := []
      measurements := []
      hasUnsavedChanges := true }

/-- `onPanResponderGrant`, `mode === 'draw'` branch (lines 168-173): start a
path seeded with the press point.  (The stray `id` field of the source object
literal is outside the `DrawPath` interface and unread.) -/
def grantDraw (point : Point) (s : AnnotatorState) : AnnotatorState :=
  { s with currentPath := some { points := [point], color := DEFAULT_COLOR } }

/-- `onPanResponderMove`, `mode === 'draw'` branch (lines 281-285). -/
def moveDraw (point : Point) (s : AnnotatorState) : AnnotatorState :=
  match s.currentPath with
  | some cp => { s with currentPath := some { cp with points := cp.points ++ [point] } }
  | none => s

/-- `onPanResponderRelease`, `mode === 'draw'` branch (lines 304-307). -/
def releaseDraw (s : AnnotatorState) : AnnotatorState :=
  match s.currentPath with
  | some cp =>
      { s with paths := s.paths ++ [cp], currentPath := none, hasUnsavedChanges := true }
  | none => s

/-- `onPanResponderGrant`, `mode === 'rectangle'` branch (lines 174-180). -/
def grantRect (now : ℕ) (point : Point) (s : AnnotatorState) : AnnotatorState :=
  { s with currentRect := some { id := freshId now, start := point, endP := point, color := DEFAULT_COLOR } }

/-- `onPanResponderMove`, `mode === 'rectangle'` branch (lines 286-290). -/
def moveRect (point : Point) (s : AnnotatorState) : AnnotatorState :=
  match s.currentRect with
  | some cr => { s with currentRect := some { cr with endP := point } }
  | none => s

/-- `onPanResponderRelease`, `mode === 'rectangle'` branch (lines 308-311). -/
def releaseRect (s : AnnotatorState) : AnnotatorState :=
  match s.currentRect with
  | some cr =>
      { s with rectangles := s.rectangles ++ [cr], currentRect := none, hasUnsavedChanges := true }
  | none => s

/-- `onPanResponderGrant`, `mode === 'measure'` branch (lines 181-187). -/
def grantMeasure (now : ℕ) (point : Point) (s : AnnotatorState) : AnnotatorState :=
  { s with currentMeasurement := some { id := freshId now, start := point, endP := point, measurement := "" } }

/-- `onPanResponderMove`, `mode === 'measure'` branch (lines 291-295). -/
def moveMeasure (point : Point) (s : AnnotatorState) : AnnotatorState :=
  match s.currentMeasurement with
  | some cm => { s with currentMeasurement := some { cm with endP := point } }
  | none => s

/-- `onPanResponderRelease`, `mode === 'measure'` branch (lines 312-314):
opens the value prompt and sets the dirty flag; the shape is not committed
here. -/
def releaseMeasure (s : AnnotatorState) : AnnotatorState :=
  match s.currentMeasurement with
  | some _ => { s with showMeasurementInput := true, hasUnsavedChanges := true }
  | none => s

/-- `onChangeText` of the measurement prompt (line 1131). -/
def typeMeasurementInput (v : String) (s : AnnotatorState) : AnnotatorState :=
  { s with measurementInput := v }

/-- Add button of the measurement prompt (lines 1148-1161): commits only when
the input is nonempty (JS truthiness) and a current measurement exists;
otherwise the press does nothing at all. -/
def confirmMeasurementInput (s : AnnotatorState) : AnnotatorState :=
  if s.measurementInput ≠ "" then
    match s.currentMeasurement with
    | some cm =>
        { s with
            measurements := s.measurements ++ [{ cm with measurement := s.measurementInput }]
            measurementInput := ""
            showMeasurementInput := false
            currentMeasurement := none
            hasUnsavedChanges := true }
    | none => s
  else s

/-- Cancel button of the measurement prompt (lines 1138-1144). -/
def cancelMeasurementInput (s : AnnotatorState) : AnnotatorState :=
  { s with showMeasurementInput := false, measurementInput := "", currentMeasurement := none }

/-- `onPanResponderGrant`, `mode === 'compare'` branch (lines 188-195). -/
def grantCompare (now : ℕ) (point : Point) (s : AnnotatorState) : AnnotatorState :=
  { s with currentComparison := some { id := freshId now, start := point, endP := point, currentMeasurement := "", targetMeasurement := "" } }

/-- `onPanResponderMove`, `mode === 'compare'` branch (lines 296-300). -/
def moveCompare (point : Point) (s : AnnotatorState) : AnnotatorState :=
  match s.currentComparison with
  | some cc => { s with currentComparison := some { cc with endP := point } }
  | none => s

/-- `onPanResponderRelease`, `mode === 'compare'` branch (lines 315-317). -/
def releaseCompare (s : AnnotatorState) : AnnotatorState :=
  match s.currentComparison with
  | some _ => { s with showComparisonInput := true, hasUnsavedChanges := true }
  | none => s

/-- `onChangeText` of the two comparison prompt fields (lines 1176, 1188). -/
def typeComparisonInputs (cur target : String) (s : AnnotatorState) : AnnotatorState :=
  { s with currentComparisonInput := cur, targetComparisonInput := target }

/-- Add button of the comparison prompt (lines 1206-1221): commits only when
both inputs are nonempty and a current comparison exists. -/
def confirmComparisonInput (s : AnnotatorState) : AnnotatorState :=
  if s.currentComparisonInput ≠ "" ∧ s.targetComparisonInput ≠ "" then
    match s.currentComparison with
    | some cc =>
        { s with
            comparisons := s.comparisons ++
              [{ cc with currentMeasurement := s.currentComparisonInput,
                         targetMeasurement := s.targetComparisonInput }]
            currentComparisonInput := ""
            targetComparisonInput := ""
            showComparisonInput := false
            currentComparison := none
            hasUnsavedChanges := true }
    | none => s
  else s

/-- Cancel button of the comparison prompt (lines 1195-1202). -/
def cancelComparisonInput (s : AnnotatorState) : AnnotatorState :=
  { s with showComparisonInput := false, currentComparisonInput := "",
           targetComparisonInput := "", currentComparison := none }

/-- `onPanResponderGrant`, `mode === 'text'` branch (lines 196-198). -/
def grantText (point : Point) (s : AnnotatorState) : AnnotatorState :=
  { s with textPosition := some point, showTextInput := true }

/-- `onChangeText` of the text prompt (line 1088). -/
def typeTextInput (v : String) (s : AnnotatorState) : AnnotatorState :=
  { s with textInput := v }

/-- Add button of the text prompt (lines 1103-1117): commits only when the
input is nonempty and an anchor position exists. -/
def confirmTextInput (now : ℕ) (s : AnnotatorState) : AnnotatorState :=
  if s.textInput ≠ "" then
    match s.textPosition with
    | some pos =>
        { s with
            texts := s.texts ++
              [{ id := freshId now, text := s.textInput, position := pos, color := themeColorsText }]
            textInput := ""
            showTextInput := false
            hasUnsavedChanges := true }
    | none => s
  else s

/-- Cancel button of the text prompt (lines 1094-1099). -/
def cancelTextInput (s : AnnotatorState) : AnnotatorState :=
  { s with showTextInput := false, textInput := "" }

/-- `onPanResponderGrant`, `mode === 'tick'` / `'cross'` branches
(lines 199-212): immediately appends an icon and sets the dirty flag.  No
undo snapshot is taken on this path. -/
def grantIcon (now : ℕ) (ty : IconType) (point : Point) (s : AnnotatorState) : AnnotatorState :=
  { s with
      icons := s.icons ++ [{ id := freshId now, type := ty, position := point }]
      hasUnsavedChanges := true }

/-- `onPanResponderMove`, `mode === 'select'` branch (lines 221-280): when a
drag session is active, translate the selected annotation by the delta from
the last recorded position, then re-base `initialPosition` to the current
point and set the dirty flag.  A `null` selection type still re-bases. -/
def moveSelect (point : Point) (s : AnnotatorState) : AnnotatorState :=
  match s.selectedItem.id, s.selectedItem.initialPosition with
  | some selId, some ip =>
      let dx := point.x - ip.x
      let dy := point.y - ip.y
      let s1 :=
        match s.selectedItem.type with
        | some SelKind.text =>
            { s with texts := s.texts.map (fun (t : TextAnnotation) =>
                if t.id = selId then
                  { t with position := ⟨t.position.x + dx, t.position.y + dy⟩ }
                else t) }
        | some SelKind.icon =>
            { s with icons := s.icons.map (fun (i : IconAnnotation) =>
                if i.id = selId then
                  { i with position := ⟨i.position.x + dx, i.position.y + dy⟩ }
                else i) }
        | some SelKind.rectangle =>
            { s with rectangles := s.rectangles.map (fun (r : RectAnnotation) =>
                if r.id = selId then
                  { r with start := ⟨r.start.x + dx, r.start.y + dy⟩,
                           endP := ⟨r.endP.x + dx, r.endP.y + dy⟩ }
                else r) }
        | some SelKind.measurement =>
            { s with measurements := s.measurements.map (fun (m : MeasurementAnnotation) =>
                if m.id = selId then
                  { m with start := ⟨m.start.x + dx, m.start.y + dy⟩,
                           endP := ⟨m.endP.x + dx, m.endP.y + dy⟩ }
                else m) }
        | some SelKind.comparison =>
            { s with comparisons := s.comparisons.map (fun (c : ComparisonMeasurement) =>
                if c.id = selId then
                  { c with start := ⟨c.start.x + dx, c.start.y + dy⟩,
                           endP := ⟨c.endP.x + dx, c.endP.y + dy⟩ }
                else c) }
        | none => s
      { s1 with
          selectedItem := { s1.selectedItem with initialPosition := some point }
          hasUnsavedChanges := true }
  | _, _ => s

/-- A drag: the fold of `moveSelect` over the pointer positions of the move
events, in order. -/
def dragMoves (ps : List Point) (s : AnnotatorState) : AnnotatorState :=
  ps.foldl (fun st p => moveSelect p st) s

/-- Per-event pointer deltas of a move sequence, each relative to the
previous event's position (the first relative to the drag's initial
position), mirroring the re-basing of `initialPosition` on every move. -/
def deltasFrom (p0 : Point) : List Point → List Point
  | [] => []
  | p :: ps => ⟨p.x - p0.x, p.y - p0.y⟩ :: deltasFrom p ps

/-- Componentwise sum of a list of deltas. -/
def sumPoints : List Point → Point
  | [] => ⟨0, 0⟩
  | d :: ds => ⟨d.x + (sumPoints ds).x, d.y + (sumPoints ds).y⟩

/-- Translation of a rectangle by a delta, as performed elementwise by the
`'rectangle'` case of the move switch. -/
def translateRect (d : Point) (r : RectAnnotation) : RectAnnotation :=
  { r with start := ⟨r.start.x + d.x, r.start.y + d.y⟩,
           endP := ⟨r.endP.x + d.x, r.endP.y + d.y⟩ }

/-- One user-level operation that creates annotations or feeds the prompts:
every gesture-handler branch of the live `panResponder` path and the prompt
buttons, excluding deletion, clear-all and undo.  Used to quantify over all
sequences of add operations. -/
inductive AddStep where
  | iconPress (now : ℕ) (ty : IconType) (p : Point)
  | drawGrant (p : Point)
  | drawMove (p : Point)
  | drawRelease
  | rectGrant (now : ℕ) (p : Point)
  | rectMove (p : Point)
  | rectRelease
  | measureGrant (now : ℕ) (p : Point)
  | measureMove (p : Point)
  | measureRelease
  | measureType (v : String)
  | measureConfirm
  | measureCancel
  | compareGrant (now : ℕ) (p : Point)
  | compareMove (p : Point)
  | compareRelease
  | compareType (cur target : String)
  | compareConfirm
  | compareCancel
  | textGrant (p : Point)
  | textType (v : String)
  | textConfirm (now : ℕ)
  | textCancel

/-- Interpretation of one `AddStep` by the corresponding source handler. -/
def applyStep : AddStep → AnnotatorState → AnnotatorState
  | AddStep.iconPress now ty p => grantIcon now ty p
  | AddStep.drawGrant p => grantDraw p
  | AddStep.drawMove p => moveDraw p
  | AddStep.drawRelease => releaseDraw
  | AddStep.rectGrant now p => grantRect now p
  | AddStep.rectMove p => moveRect p
  | AddStep.rectRelease => releaseRect
  | AddStep.measureGrant now p => grantMeasure now p
  | AddStep.measureMove p => moveMeasure p
  | AddStep.measureRelease => releaseMeasure
  | AddStep.measureType v => typeMeasurementInput v
  | AddStep.measureConfirm => confirmMeasurementInput
  | AddStep.measureCancel => cancelMeasurementInput
  | AddStep.compareGrant now p => grantCompare now p
  | AddStep.compareMove p => moveCompare p
  | AddStep.compareRelease => releaseCompare
  | AddStep.compareType cur target => typeComparisonInputs cur target
  | AddStep.compareConfirm => confirmComparisonInput
  | AddStep.compareCancel => cancelComparisonInput
  | AddStep.textGrant p => grantText p
  | AddStep.textType v => typeTextInput v
  | AddStep.textConfirm now => confirmTextInput now
  | AddStep.textCancel => cancelTextInput

/-- A sequence of add operations applied in order. -/
def applySteps (ops : List AddStep) (s : AnnotatorState) : AnnotatorState :=
  ops.foldl (fun st op => applyStep op st) s

/-- The `AnnotationData` assembled by `handleSave` (lines 543-564) from the
current collections and the captured thumbnail reference.  Comparisons are
not included. -/
def handleSaveData (s : AnnotatorState) (thumbnailUri : String) : AnnotationData where
  paths := s.paths
  texts := s.texts
  icons := s.icons
  rectangles := s.rectangles
  measurements := s.measurements
  thumbnailUri := thumbnailUri

/-- Coordinate pair over the reals, used for the trigonometric label helper
`getTextRotationAndPosition`, where the JS `number` arithmetic involves
`Math.atan2` and `Math.PI`. -/
structure RPoint where
  x : ℝ
  y : ℝ

/-- Result record of `getTextRotationAndPosition`. -/
structure LabelPlacement where
  angle : ℝ
  midX : ℝ
  midY : ℝ

/-- Mathematical `Math.atan2 y x`: the angle of the vector `(x, y)` in
`(-π, π]`, defined by the usual case split on the signs of the arguments
(signed-zero subtleties of IEEE floats do not arise over `ℝ`). -/
noncomputable def atan2 (y x : ℝ) : ℝ :=
  if 0 < x then Real.arctan (y / x)
  else if x < 0 ∧ 0 ≤ y then Real.arctan (y / x) + Real.pi
  else if x < 0 ∧ y < 0 then Real.arctan (y / x) - Real.pi
  else if x = 0 ∧ 0 < y then Real.pi / 2
  else if x = 0 ∧ y < 0 then -(Real.pi / 2)
  else 0

/-- `getTextRotationAndPosition` (lines 89-102): raw angle of the start-to-end
direction in degrees, then the two sequential readability adjustments
(`if (angle > 90) angle -= 180; if (angle < -90) angle += 180;`), and the
midpoint as the arithmetic mean of the endpoints. -/
noncomputable def getTextRotationAndPosition (s e : RPoint) : LabelPlacement :=
  let angle0 := atan2 (e.y - s.y) (e.x - s.x) * 180 / Real.pi
  let angle1 := if angle0 > 90 then angle0 - 180 else angle0
  let angle2 := if angle1 < -90 then angle1 + 180 else angle1
  { angle := angle2, midX := (s.x + e.x) / 2, midY := (s.y + e.y) / 2 }

/-- Spec wording of the text hit rule: both absolute coordinate deltas from
the anchor strictly below the hit radius 50 (an axis-aligned box). -/
def textHitSpec (p : Point) (t : TextAnnotation) : Prop :=
  |p.x - t.position.x| < 50 ∧ |p.y - t.position.y| < 50

/-- Spec wording of the icon hit rule: both absolute deltas strictly below
30. -/
def iconHitSpec (p : Point) (i : IconAnnotation) : Prop :=
  |p.x - i.position.x| < 30 ∧ |p.y - i.position.y| < 30

/-- Spec wording of the box hit rule for two-endpoint shapes: the point lies
in the min/max bounding box of the endpoints expanded by margin 30 on all
sides. -/
def boxHitSpec (p a b : Point) : Prop :=
  p.x ∈ Set.Icc (min a.x b.x - 30) (max a.x b.x + 30) ∧
  p.y ∈ Set.Icc (min a.y b.y - 30) (max a.y b.y + 30)

/-- A fixed sample text annotation anchored at the origin. -/
def sampleText : TextAnnotation :=
  { id := "t1", text := "hello", position := ⟨0, 0⟩, color := "#000000" }

/-- A fixed sample icon annotation anchored at the origin. -/
def sampleIcon : IconAnnotation :=
  { id := "i1", type := IconType.tick, position := ⟨0, 0⟩ }

/-- A fixed sample rectangle annotation. -/
def sampleRect : RectAnnotation :=
  { id := "r1", start := ⟨100, 100⟩, endP := ⟨200, 200⟩, color := DEFAULT_COLOR }

/-- A fixed sample measurement annotation. -/
def sampleMeasurement : MeasurementAnnotation :=
  { id := "m1", start := ⟨300, 300⟩, endP := ⟨400, 300⟩, measurement := "42" }

/-- A fixed sample comparison annotation. -/
def sampleComparison : ComparisonMeasurement :=
  { id := "c1", start := ⟨500, 500⟩, endP := ⟨600, 500⟩,
    currentMeasurement := "10", targetMeasurement := "20" }

/-- A fixed sample freehand path. -/
def samplePath : DrawPath :=
  { points := [⟨1, 1⟩, ⟨2, 2⟩], color := DEFAULT_COLOR }

/-- A session state holding one annotation of every kind, including a
comparison. -/
def fullState : AnnotatorState :=
  { initState none with
      paths := [samplePath]
      texts := [sampleText]
      icons := [sampleIcon]
      rectangles := [sampleRect]
      measurements := [sampleMeasurement]
      comparisons := [sampleComparison] }

/-- C1: the claimed priority order is false.  With a text annotation and an
icon annotation both anchored at the origin, a delete-mode press at the
origin (whose hit test overlaps both) removes the icon as well as the text:
`handleDeletion` filters every collection independently and does not stop
after the first hit. -/
theorem C1_counterexample :
    (handleDeletion ⟨0, 0⟩
        { initState none with texts := [sampleText], icons := [sampleIcon] }).texts = [] ∧
    (handleDeletion ⟨0, 0⟩
        { initState none with texts := [sampleText], icons := [sampleIcon] }).icons = [] := by
  constructor <;>
    norm_num [handleDeletion, saveToUndoStack, isTextTouched, isIconTouched,
      sampleText, sampleIcon, List.filter]

/-- C1 (amended): in delete mode a press removes every annotation whose hit
test succeeds, from each of the text, icon, rectangle and measurement
collections independently (no priority order, no stop after the first hit),
and never removes comparisons or paths. -/
theorem C1_delete_filters_every_touched (point : Point) (s : AnnotatorState) :
    (handleDeletion point s).texts = s.texts.filter (fun t => !isTextTouched point t) ∧
    (handleDeletion point s).icons = s.icons.filter (fun i => !isIconTouched point i) ∧
    (handleDeletion point s).rectangles = s.rectangles.filter (fun r => !isRectangleTouched point r) ∧
    (handleDeletion point s).measurements = s.measurements.filter (fun m => !isMeasurementTouched point m) ∧
    (handleDeletion point s).comparisons = s.comparisons ∧
    (handleDeletion point s).paths = s.paths :=
  ⟨rfl, rfl, rfl, rfl, rfl, rfl⟩

/-- C3: the round trip is lossy for comparisons.  Saving a session holding
one annotation of every kind and reloading the saved data into a fresh
session yields an empty comparison collection: `handleSave` omits
comparisons from `AnnotationData` and the initializer always starts
comparisons empty. -/
theorem C3_counterexample :
    (initState (some (handleSaveData fullState "thumb.png"))).comparisons = [] ∧
    fullState.comparisons = [sampleComparison] ∧
    [sampleComparison] ≠ ([] : List ComparisonMeasurement) :=
  ⟨rfl, rfl, by decide⟩

/-- C3 (amended): serializing on save and reloading into a fresh session
reproduces the path, text, icon, rectangle and measurement collections
exactly, with all fields; comparison annotations are not serialized and the
reloaded session's comparison collection is always empty. -/
theorem C3_roundtrip_five_kinds (s : AnnotatorState) (thumb : String) :
    (initState (some (handleSaveData s thumb))).paths = s.paths ∧
    (initState (some (handleSaveData s thumb))).texts = s.texts ∧
    (initState (some (handleSaveData s thumb))).icons = s.icons ∧
    (initState (some (handleSaveData s thumb))).rectangles = s.rectangles ∧
    (initState (some (handleSaveData s thumb))).measurements = s.measurements ∧
    (initState (some (handleSaveData s thumb))).comparisons = [] :=
  ⟨rfl, rfl, rfl, rfl, rfl, rfl⟩

/-- C5: `handleClearAll` does not empty every collection.  From a state
holding one comparison, the comparison survives the clear. -/
theorem C5_counterexample :
    (handleClearAll { initState none with comparisons := [sampleComparison] }).comparisons
      = [sampleComparison] ∧
    [sampleComparison] ≠ ([] : List ComparisonMeasurement) :=
  ⟨rfl, by decide⟩

/-- C5 (amended): `handleClearAll` empties the path, text, icon, rectangle
and measurement collections in one step and pushes exactly one snapshot of
the pre-clear state, but it leaves the comparison collection untouched. -/
theorem C5_clearAll_clears_five (s : AnnotatorState) :
    (handleClearAll s).paths = [] ∧
    (handleClearAll s).texts = [] ∧
    (handleClearAll s).icons = [] ∧
    (handleClearAll s).rectangles = [] ∧
    (handleClearAll s).measurements = [] ∧
    (handleClearAll s).comparisons = s.comparisons ∧
    (handleClearAll s).undoStack = s.undoStack ++ [mkSnapshot s] ∧
    (handleClearAll s).hasUnsavedChanges = true :=
  ⟨rfl, rfl, rfl, rfl, rfl, rfl, rfl, rfl⟩

/-- C8: the hit tests are exactly the spec's predicates — strict axis-aligned
boxes of half-width 50 for text and 30 for icons, and the endpoint bounding
box expanded by 30 (inclusive) for rectangles, measurements and
comparisons. -/
theorem C8_hit_tests_characterized :
    (∀ p t, isTextTouched p t = true ↔ textHitSpec p t) ∧
    (∀ p i, isIconTouched p i = true ↔ iconHitSpec p i) ∧
    (∀ p r, isRectangleTouched p r = true ↔ boxHitSpec p r.start r.endP) ∧
    (∀ p m, isMeasurementTouched p m = true ↔ boxHitSpec p m.start m.endP) ∧
    (∀ p c, isComparisonTouched p c = true ↔ boxHitSpec p c.start c.endP) := by
  refine ⟨fun p t => ?_, fun p i => ?_, fun p r => ?_, fun p m => ?_, fun p c => ?_⟩ <;>
    simp [isTextTouched, isIconTouched, isRectangleTouched, isMeasurementTouched,
      isComparisonTouched, textHitSpec, iconHitSpec, boxHitSpec, Set.mem_Icc, and_assoc]

/-- C9: ids are not process-unique.  Two icons added by consecutive presses
within the same millisecond (`Date.now()` returning 1000 both times) receive
the identical id `"1000"`. -/
theorem C9_counterexample :
    ((grantIcon 1000 IconType.cross ⟨5, 5⟩
        (grantIcon 1000 IconType.tick ⟨0, 0⟩ (initState none))).icons.map
      (fun i => i.id)) = ["1000", "1000"] := by
  rfl

/-- C9 (amended): every annotation's id is `freshId now`, the decimal string
of the millisecond clock value at creation, for each creating handler; hence
annotations created in the same millisecond share an id and uniqueness holds
only across distinct clock values. -/
theorem C9_ids_are_clock_strings (now : ℕ) (ty : IconType) (p : Point) (s : AnnotatorState) :
    freshId now = toString now ∧
    ((grantIcon now ty p s).icons.getLast?).map (fun i => i.id) = some (freshId now) ∧
    ((grantRect now p s).currentRect).map (fun r => r.id) = some (freshId now) ∧
    ((grantMeasure now p s).currentMeasurement).map (fun m => m.id) = some (freshId now) ∧
    ((grantCompare now p s).currentComparison).map (fun c => c.id) = some (freshId now) := by
  refine ⟨rfl, ?_, rfl, rfl, rfl⟩
  simp [grantIcon]

/-- No add-path handler writes the undo stack: every gesture branch and
prompt button that creates annotations leaves `undoStack` untouched. -/
theorem applyStep_undoStack_eq (op : AddStep) (s : AnnotatorState) :
    (applyStep op s).undoStack = s.undoStack := by
  cases op <;>
    simp only [applyStep, grantIcon, grantDraw, moveDraw, releaseDraw, grantRect,
      moveRect, releaseRect, grantMeasure, moveMeasure, releaseMeasure,
      typeMeasurementInput, confirmMeasurementInput, cancelMeasurementInput,
      grantCompare, moveCompare, releaseCompare, typeComparisonInputs,
      confirmComparisonInput, cancelComparisonInput, grantText, typeTextInput,
      confirmTextInput, cancelTextInput] <;>
    repeat' first
      | rfl
      | split

/-- Sequences of add operations never grow the undo stack. -/
theorem applySteps_undoStack_eq (ops : List AddStep) (s : AnnotatorState) :
    (applySteps ops s).undoStack = s.undoStack := by
  induction ops generalizing s with
  | nil => rfl
  | cons op ops ih =>
      show (applySteps ops (applyStep op s)).undoStack = s.undoStack
      rw [ih, applyStep_undoStack_eq]

/-- C2: undo is not an inverse of add operations.  From a fresh session, one
tick press in the live pan-responder path followed by `handleUndo` leaves the
icon in place: the add pushed no snapshot, so the undo stack is empty and the
undo is a no-op, and the collections do not return to their pre-add state. -/
theorem C2_counterexample :
    (handleUndo (applyStep (AddStep.iconPress 1000 IconType.tick ⟨0, 0⟩)
        (initState none))).icons ≠ (initState none).icons := by
  intro h
  simp [handleUndo, applyStep, grantIcon, initState] at h

/-- C2 (amended): no add operation (any gesture branch or prompt confirmation
that creates a path, text, icon, rectangle, measurement or comparison) pushes
a history snapshot; consequently, starting from any state with an empty undo
stack, every sequence of add operations leaves the stack empty and one
`handleUndo` is the identity on the resulting state rather than an inverse of
the last add.  Only deletion and clear-all push snapshots. -/
theorem C2_adds_push_no_snapshot (ops : List AddStep) (s : AnnotatorState)
    (h : s.undoStack = []) :
    (applySteps ops s).undoStack = [] ∧
    handleUndo (applySteps ops s) = applySteps ops s := by
  have hstack : (applySteps ops s).undoStack = [] :=
    (applySteps_undoStack_eq ops s).trans h
  refine ⟨hstack, ?_⟩
  unfold handleUndo
  rw [hstack]
  rfl

/-- C2 witness: the amended statement applied to a fresh session and a
one-press add sequence. -/
theorem C2_adds_push_no_snapshot_witness :
    (applySteps [AddStep.iconPress 1000 IconType.tick ⟨0, 0⟩] (initState none)).undoStack = [] ∧
    handleUndo (applySteps [AddStep.iconPress 1000 IconType.tick ⟨0, 0⟩] (initState none)) =
      applySteps [AddStep.iconPress 1000 IconType.tick ⟨0, 0⟩] (initState none) :=
  C2_adds_push_no_snapshot [AddStep.iconPress 1000 IconType.tick ⟨0, 0⟩] (initState none) rfl

/-- C4: the dirty flag does not survive the gesture unchanged.  From a fresh
session (dirty flag false), a measure gesture press-move-release followed by
confirming the prompt with the still-empty input leaves the measurements
collection unchanged but has already set the dirty flag to true at release
time. -/
theorem C4_counterexample :
    (confirmMeasurementInput (releaseMeasure (moveMeasure ⟨100, 0⟩
        (grantMeasure 1000 ⟨0, 0⟩ (initState none))))).measurements = [] ∧
    (confirmMeasurementInput (releaseMeasure (moveMeasure ⟨100, 0⟩
        (grantMeasure 1000 ⟨0, 0⟩ (initState none))))).hasUnsavedChanges = true ∧
    (initState none).hasUnsavedChanges = false := by
  refine ⟨?_, ?_, rfl⟩ <;>
    simp [confirmMeasurementInput, releaseMeasure, moveMeasure, grantMeasure, initState]

/-- C4 (amended): a measure-mode press-move-release opens the value prompt,
and confirming it with an empty input is a complete no-op on that state — in
particular the measurements collection is exactly as before the gesture and
the discarded shape surfaces no error — but the release itself already set
the has-unsaved-changes flag to true, so `isDirty()` does not keep its
pre-gesture value when it was false. -/
theorem C4_empty_confirm_discards (s : AnnotatorState) (now : ℕ) (p0 p1 : Point)
    (h : s.measurementInput = "") :
    (confirmMeasurementInput (releaseMeasure (moveMeasure p1
        (grantMeasure now p0 s)))).measurements = s.measurements ∧
    (confirmMeasurementInput (releaseMeasure (moveMeasure p1
        (grantMeasure now p0 s)))).showMeasurementInput = true ∧
    (confirmMeasurementInput (releaseMeasure (moveMeasure p1
        (grantMeasure now p0 s)))).hasUnsavedChanges = true := by
  refine ⟨?_, ?_, ?_⟩ <;>
    simp [confirmMeasurementInput, releaseMeasure, moveMeasure, grantMeasure, h]

/-- C4 witness: the amended statement applied to a fresh session and the
spec's gesture from the origin to (100, 0). -/
theorem C4_empty_confirm_discards_witness :
    (confirmMeasurementInput (releaseMeasure (moveMeasure ⟨100, 0⟩
        (grantMeasure 1000 ⟨0, 0⟩ (initState none))))).measurements = (initState none).measurements ∧
    (confirmMeasurementInput (releaseMeasure (moveMeasure ⟨100, 0⟩
        (grantMeasure 1000 ⟨0, 0⟩ (initState none))))).showMeasurementInput = true ∧
    (confirmMeasurementInput (releaseMeasure (moveMeasure ⟨100, 0⟩
        (grantMeasure 1000 ⟨0, 0⟩ (initState none))))).hasUnsavedChanges = true :=
  C4_empty_confirm_discards (initState none) 1000 ⟨0, 0⟩ ⟨100, 0⟩ rfl

/-- C10: a delete-mode press whose hit test finds nothing leaves every
collection and the dirty flag unchanged, yet still appends one snapshot of
the current collections to the undo stack, and a subsequent `handleUndo`
restores a state equal to the pre-press state. -/
theorem C10_missed_delete_still_snapshots (point : Point) (s : AnnotatorState)
    (ht : ∀ t ∈ s.texts, isTextTouched point t = false)
    (hi : ∀ i ∈ s.icons, isIconTouched point i = false)
    (hr : ∀ r ∈ s.rectangles, isRectangleTouched point r = false)
    (hm : ∀ m ∈ s.measurements, isMeasurementTouched point m = false) :
    (handleDeletion point s).texts = s.texts ∧
    (handleDeletion point s).icons = s.icons ∧
    (handleDeletion point s).rectangles = s.rectangles ∧
    (handleDeletion point s).measurements = s.measurements ∧
    (handleDeletion point s).paths = s.paths ∧
    (handleDeletion point s).comparisons = s.comparisons ∧
    (handleDeletion point s).hasUnsavedChanges = s.hasUnsavedChanges ∧
    (handleDeletion point s).undoStack = s.undoStack ++ [mkSnapshot s] ∧
    handleUndo (handleDeletion point s) = s := by
  have et : s.texts.filter (fun t => !isTextTouched point t) = s.texts :=
    List.filter_eq_self.mpr (fun t htm => by rw [ht t htm]; rfl)
  have ei : s.icons.filter (fun i => !isIconTouched point i) = s.icons :=
    List.filter_eq_self.mpr (fun i him => by rw [hi i him]; rfl)
  have er : s.rectangles.filter (fun r => !isRectangleTouched point r) = s.rectangles :=
    List.filter_eq_self.mpr (fun r hrm => by rw [hr r hrm]; rfl)
  have em : s.measurements.filter (fun m => !isMeasurementTouched point m) = s.measurements :=
    List.filter_eq_self.mpr (fun m hmm => by rw [hm m hmm]; rfl)
  have hD : handleDeletion point s = { s with undoStack := s.undoStack ++ [mkSnapshot s] } := by
    simp only [handleDeletion, saveToUndoStack, et, ei, er, em]
    simp
  rw [hD]
  refine ⟨rfl, rfl, rfl, rfl, rfl, rfl, rfl, rfl, ?_⟩
  simp only [handleUndo, List.getLast?_concat, List.dropLast_concat, mkSnapshot]

/-- C10 witness: a session holding one text annotation at the origin and a
delete press far away at (500, 500). -/
theorem C10_missed_delete_still_snapshots_witness :
    handleUndo (handleDeletion ⟨500, 500⟩ { initState none with texts := [sampleText] }) =
      { initState none with texts := [sampleText] } :=
  (C10_missed_delete_still_snapshots ⟨500, 500⟩
    { initState none with texts := [sampleText] }
    (by intro t htm; simp only [List.mem_singleton] at htm; subst htm;
        norm_num [isTextTouched, sampleText])
    (by intro i him; simp [initState] at him)
    (by intro r hrm; simp [initState] at hrm)
    (by intro m hmm; simp [initState] at hmm)).2.2.2.2.2.2.2.2

/-- Translating a rectangle does not change its id. -/
theorem translateRect_id (d : Point) (r : RectAnnotation) :
    (translateRect d r).id = r.id := rfl

/-- Two successive translations compose into the translation by the
componentwise sum. -/
theorem translateRect_translateRect (d1 d2 : Point) (r : RectAnnotation) :
    translateRect d2 (translateRect d1 r) = translateRect ⟨d1.x + d2.x, d1.y + d2.y⟩ r := by
  simp [translateRect, add_assoc]

/-- Translating by the zero delta is the identity. -/
theorem translateRect_zero (r : RectAnnotation) : translateRect ⟨0, 0⟩ r = r := by
  cases r with
  | mk id s e c => cases s; cases e; simp [translateRect]

/-- C7: dragging a selected rectangle across any sequence of move events
translates it by exactly the componentwise sum of the per-event deltas (each
delta taken relative to the previous event, as `initialPosition` is re-based
on every move), independent of the number of events: the final rectangles
collection is the original with the selected rectangle translated by the sum
and every other rectangle untouched. -/
theorem C7_drag_translates_by_delta_sum (ps : List Point) (s : AnnotatorState)
    (selId : String) (p0 : Point)
    (h : s.selectedItem = ⟨some SelKind.rectangle, some selId, some p0⟩) :
    (dragMoves ps s).rectangles =
      s.rectangles.map (fun r =>
        if r.id = selId then translateRect (sumPoints (deltasFrom p0 ps)) r else r) := by
  induction ps generalizing s p0 with
  | nil =>
      have hpt : ∀ r : RectAnnotation,
          (if r.id = selId then translateRect (sumPoints (deltasFrom p0 [])) r else r) = r := by
        intro r
        split
        · exact translateRect_zero r
        · rfl
      calc (dragMoves [] s).rectangles = s.rectangles.map id := (List.map_id _).symm
        _ = s.rectangles.map (fun r =>
              if r.id = selId then translateRect (sumPoints (deltasFrom p0 [])) r else r) :=
            List.map_congr_left (fun r _ => (hpt r).symm)
  | cons p ps ih =>
      have hmove : moveSelect p s =
          { s with
              rectangles := s.rectangles.map (fun r =>
                if r.id = selId then translateRect ⟨p.x - p0.x, p.y - p0.y⟩ r else r)
              selectedItem := ⟨some SelKind.rectangle, some selId, some p⟩
              hasUnsavedChanges := true } := by
        simp only [moveSelect, h, translateRect]
      have hsel : (moveSelect p s).selectedItem =
          ⟨some SelKind.rectangle, some selId, some p⟩ := by
        rw [hmove]
      have hstep : dragMoves (p :: ps) s = dragMoves ps (moveSelect p s) := rfl
      rw [hstep, ih (moveSelect p s) p hsel, hmove]
      rw [List.map_map]
      refine List.map_congr_left (fun r _ => ?_)
      by_cases hid : r.id = selId
      · simp only [Function.comp_apply, hid, if_true, translateRect_id,
          translateRect_translateRect]
        rfl
      · simp only [Function.comp_apply, hid, if_false]

/-- C7 witness: one rectangle, a drag session anchored at the origin, and two
move events with per-event deltas (3, 4) and (7, -4) summing to (10, 0). -/
theorem C7_drag_translates_by_delta_sum_witness :
    (dragMoves [⟨3, 4⟩, ⟨10, 0⟩]
        { initState none with
            rectangles := [sampleRect]
            selectedItem := ⟨some SelKind.rectangle, some "r1", some ⟨0, 0⟩⟩ }).rectangles =
      ({ initState none with
            rectangles := [sampleRect]
            selectedItem :=
              ⟨some SelKind.rectangle, some "r1", some ⟨0, 0⟩⟩ } : AnnotatorState).rectangles.map
        (fun r =>
          if r.id = "r1" then
            translateRect (sumPoints (deltasFrom ⟨0, 0⟩ [⟨3, 4⟩, ⟨10, 0⟩])) r
          else r) :=
  C7_drag_translates_by_delta_sum [⟨3, 4⟩, ⟨10, 0⟩] _ "r1" ⟨0, 0⟩ rfl

/-- The atan2 angle always lies in the half-open interval `(-π, π]`. -/
theorem atan2_bounds (y x : ℝ) : -Real.pi < atan2 y x ∧ atan2 y x ≤ Real.pi := by
  have hpi := Real.pi_pos
  unfold atan2
  split_ifs with h1 h2 h3 h4 h5
  · have ha1 := Real.neg_pi_div_two_lt_arctan (y / x)
    have ha2 := Real.arctan_lt_pi_div_two (y / x)
    constructor <;> linarith
  · obtain ⟨hx, hy⟩ := h2
    have hq : y / x ≤ 0 := div_nonpos_iff.mpr (Or.inl ⟨hy, hx.le⟩)
    have ha1 : Real.arctan (y / x) ≤ 0 := by
      have := Real.arctan_strictMono.monotone hq
      rwa [Real.arctan_zero] at this
    have ha2 := Real.neg_pi_div_two_lt_arctan (y / x)
    constructor <;> linarith
  · obtain ⟨hx, hy⟩ := h3
    have hq : 0 < y / x := div_pos_of_neg_of_neg hy hx
    have ha1 : 0 < Real.arctan (y / x) := by
      have := Real.arctan_strictMono hq
      rwa [Real.arctan_zero] at this
    have ha2 := Real.arctan_lt_pi_div_two (y / x)
    constructor <;> linarith
  · constructor <;> linarith
  · constructor <;> linarith
  · constructor <;> linarith

/-- The raw degree angle `atan2 * 180 / π` always lies in `(-180, 180]`. -/
theorem raw_degrees_bounds (y x : ℝ) :
    -180 < atan2 y x * 180 / Real.pi ∧ atan2 y x * 180 / Real.pi ≤ 180 := by
  obtain ⟨h1, h2⟩ := atan2_bounds y x
  have hpi := Real.pi_pos
  constructor
  · rw [lt_div_iff₀ hpi]
    nlinarith
  · rw [div_le_iff₀ hpi]
    nlinarith

/-- C6: the normalized label angle is not always in the open-below interval
(-90°, 90°].  For the segment from (0,0) straight up to (0,-10) the raw atan2
angle is exactly -90°, neither adjustment fires, and the returned angle is
-90°, which is outside (-90°, 90°]. -/
theorem C6_counterexample :
    (getTextRotationAndPosition ⟨0, 0⟩ ⟨0, -10⟩).angle = -90 ∧
    ¬ (-90 < (getTextRotationAndPosition ⟨0, 0⟩ ⟨0, -10⟩).angle) := by
  have hpne := Real.pi_ne_zero
  have hx : atan2 ((-10 : ℝ) - 0) ((0 : ℝ) - 0) = -(Real.pi / 2) := by
    unfold atan2
    norm_num
  have hraw : atan2 ((-10 : ℝ) - 0) ((0 : ℝ) - 0) * 180 / Real.pi = -90 := by
    rw [hx]
    field_simp
    ring
  have hangle : (getTextRotationAndPosition ⟨0, 0⟩ ⟨0, -10⟩).angle = -90 := by
    simp only [getTextRotationAndPosition]
    rw [hraw]
    norm_num
  exact ⟨hangle, by rw [hangle]; norm_num⟩

/-- C6 (amended): for every pair of points the angle returned by
`getTextRotationAndPosition` lies in the closed interval [-90°, 90°] (the
endpoint -90° is attained exactly when the raw atan2 angle is -90°, the
claimed open bound failing only there), the returned midpoint is the
arithmetic mean of start and end, and the spec's example holds: the segment
from (0,0) to (-10,-10), raw angle -135°, normalizes to 45°. -/
theorem C6_label_angle_range (s e : RPoint) :
    -90 ≤ (getTextRotationAndPosition s e).angle ∧
    (getTextRotationAndPosition s e).angle ≤ 90 ∧
    (getTextRotationAndPosition s e).midX = (s.x + e.x) / 2 ∧
    (getTextRotationAndPosition s e).midY = (s.y + e.y) / 2 ∧
    (getTextRotationAndPosition ⟨0, 0⟩ ⟨-10, -10⟩).angle = 45 := by
  obtain ⟨h1, h2⟩ := raw_degrees_bounds (e.y - s.y) (e.x - s.x)
  have hpne := Real.pi_ne_zero
  refine ⟨?_, ?_, rfl, rfl, ?_⟩
  · simp only [getTextRotationAndPosition]
    split_ifs <;> linarith
  · simp only [getTextRotationAndPosition]
    split_ifs <;> linarith
  · have hx : atan2 ((-10 : ℝ) - 0) ((-10 : ℝ) - 0) = Real.arctan 1 - Real.pi := by
      unfold atan2
      norm_num
    have hraw : atan2 ((-10 : ℝ) - 0) ((-10 : ℝ) - 0) * 180 / Real.pi = -135 := by
      rw [hx, Real.arctan_one]
      field_simp
      ring
    simp only [getTextRotationAndPosition]
    rw [hraw]
    norm_num

end Annotator
